import Mathlib

/-!
Verification development for the adaptive 20-questions game engine
(backend services: `game_service.py`, `rate_limiter.py`, `ai_service.py`,
`database/utils.py`).  The Python functions are shallowly embedded as
executable Lean definitions: dictionaries become finite key sets with an
answer function, the relational tables become lists of row structures,
Python floats on scores/effectiveness become exact rationals, and the
external effects (AI generation, database and session-store I/O) become
explicit environment parameters recording each call's outcome.
-/

namespace Game

/-! ## Answer patterns and `calculate_pattern_similarity` (database/utils.py) -/

/-- A Python dict mapping question id to the given answer:
a finite key set together with an answer function (values outside
the key set are irrelevant). -/
structure Pattern where
  keys : Finset Nat
  ans : Nat → String

/-- Embedding of `calculate_pattern_similarity(pattern1, pattern2)`:
common ids are the key intersection; score 0.0 on empty intersection;
otherwise 0.7 × (fraction of case-insensitively matching answers on the
intersection) + 0.3 × (|intersection| / max(|pattern1|, |pattern2|)). -/
def commonQuestions (p1 p2 : Pattern) : Finset Nat := p1.keys ∩ p2.keys

/-- `sum(1 for q_id in common_questions if pattern1[q_id].lower() ==
pattern2[q_id].lower())`. -/
def matchCount (p1 p2 : Pattern) : Nat :=
  ((commonQuestions p1 p2).filter
    (fun q => (p1.ans q).toLower = (p2.ans q).toLower)).card

def calculate_pattern_similarity (p1 p2 : Pattern) : ℚ :=
  if commonQuestions p1 p2 = ∅ then 0
  else
    (matchCount p1 p2 : ℚ) / ((commonQuestions p1 p2).card : ℚ) * (7/10) +
      ((commonQuestions p1 p2).card : ℚ) / (max p1.keys.card p2.keys.card : ℚ) * (3/10)

/-! ## Quota ledger: `APIRateLimiter.check_and_increment` (rate_limiter.py) -/

/-- Per-model rate limits (`rpm_limit`, `rpd_limit` of the models config). -/
structure QuotaConfig where
  rpm_limit : Nat
  rpd_limit : Nat

/-- The Redis keys backing one model's quota: the raw stored counters
`rate:<m>:minute` / `rate:<m>:day` and the bucket ids
`rate:<m>:last_minute` / `rate:<m>:last_day` (`none` = key absent). -/
structure QuotaState where
  minuteCount : Nat
  dayCount : Nat
  lastMinute : Option String
  lastDay : Option String
deriving DecidableEq, Repr

/-- The minute and day bucket ids for "now" (`%Y-%m-%d-%H-%M`, `%Y-%m-%d`). -/
structure Clock where
  currentMinute : String
  currentDay : String

/-- Embedding of `check_and_increment`: read both counters and bucket ids;
a counter whose stored bucket id differs from the current one is treated as
zero for the limit check (the local variable is reset, the stored counter is
not).  On rejection the queued bucket-id writes are still executed when
either bucket was stale; on success both raw stored counters are
incremented and both bucket ids are set to "now". -/
def check_and_increment (cfg : QuotaConfig) (now : Clock) (s : QuotaState) :
    Bool × QuotaState :=
  let staleMinute := s.lastMinute ≠ some now.currentMinute
  let staleDay := s.lastDay ≠ some now.currentDay
  let minute_count := if staleMinute then 0 else s.minuteCount
  let day_count := if staleDay then 0 else s.dayCount
  if cfg.rpm_limit ≤ minute_count ∨ cfg.rpd_limit ≤ day_count then
    (false,
      if staleMinute ∨ staleDay then
        { s with
          lastMinute := if staleMinute then some now.currentMinute else s.lastMinute
          lastDay := if staleDay then some now.currentDay else s.lastDay }
      else s)
  else
    (true,
      { minuteCount := s.minuteCount + 1
        dayCount := s.dayCount + 1
        lastMinute := some now.currentMinute
        lastDay := some now.currentDay })

/-! ## Emergency questions (`ai_service.create_emergency_question`) -/

/-- Embedding of `create_emergency_question(domain, question_number)`:
five templated formats, indexed by `question_number mod 5`; only the
fourth format bakes the number into the text. -/
def create_emergency_question (domain : String) (question_number : Nat) : String :=
  let emergency_formats : List String :=
    ["Is this " ++ domain ++ " considered popular?",
     "Is this " ++ domain ++ " something most people know about?",
     "Is this " ++ domain ++ " commonly used?",
     "Has this " ++ domain ++ " existed for more than " ++
       toString (10 + question_number) ++ " years?",
     "Is this " ++ domain ++ " found in many countries?"]
  emergency_formats.getD (question_number % 5) ""

/-- One pass of the emergency retry loop in `get_next_question`: the next
candidate uses index `len(asked_questions) + len(emergency_question)`. -/
def emergencyStep (domain : String) (askedLen : Nat) (q : String) : String :=
  create_emergency_question domain (askedLen + q.length)

/-- The `while emergency_question in asked_questions` retry loop, with
explicit fuel (the Python loop has none): returns the first candidate not
in the asked list, `none` if the fuel runs out. -/
def findUnusedEmergency (domain : String) (asked : List String) :
    Nat → String → Option String
  | 0, q => if q ∈ asked then none else some q
  | Nat.succ n, q =>
      if q ∈ asked then
        findUnusedEmergency domain asked n (emergencyStep domain asked.length q)
      else some q

/-! ## Session state (`start_new_game`, Redis session blob) -/

/-- One entry of `question_history`. -/
structure QRecord where
  question_id : Nat
  question : String
  answer : String
deriving DecidableEq, Repr

/-- The session blob stored under `session:<id>` (timestamps and voice
fields dropped; they are never read by the verified operations). -/
structure GameState where
  domain : String
  questions_asked : Nat
  question_history : List QRecord
  asked_questions : List String
  current_question_id : Option Nat
deriving DecidableEq, Repr

/-- Embedding of `start_new_game`: the freshly stored session state. -/
def start_new_game (domain : String) : GameState :=
  { domain := domain
    questions_asked := 0
    question_history := []
    asked_questions := []
    current_question_id := none }

/-! ## Relational tables (`database/schemas.py`) -/

/-- A row of `questions` (id SERIAL PRIMARY KEY, question_text UNIQUE). -/
structure QRow where
  id : Nat
  text : String
deriving DecidableEq, Repr

/-- A row of `domain_questions`; effectiveness defaults to 0.5, usage to 0. -/
structure DQRow where
  rowId : Nat
  domain : String
  question_id : Nat
  position : Option Nat
  usage_count : Nat
  effectiveness : ℚ
deriving DecidableEq, Repr

/-- A row of `domain_guesses` (entity_name is nullable). -/
structure GuessRow where
  rowId : Nat
  domain : String
  entity_name : Option String
  success_count : Nat
  fail_count : Nat
deriving DecidableEq, Repr

/-- A row of `game_history` (duration/user dropped; never read back). -/
structure GameHistRow where
  id : String
  target_entity : Option String
  domain : String
  was_correct : Bool
deriving DecidableEq, Repr

/-- A row of `game_questions`. -/
structure GameQRow where
  game_id : String
  question_id : Nat
  answer : String
  ask_order : Nat
deriving DecidableEq, Repr

/-- The relational store, with the serial counters for fresh primary keys. -/
structure Db where
  questions : List QRow
  nextQuestionId : Nat
  domain_questions : List DQRow
  nextSlotRowId : Nat
  domain_guesses : List GuessRow
  nextGuessRowId : Nat
  game_history : List GameHistRow
  game_questions : List GameQRow
deriving Repr

/-- `SELECT question_text FROM questions WHERE id = %s` (id is the PK). -/
def textOf (db : Db) (qid : Nat) : Option String :=
  (db.questions.find? (fun q => q.id = qid)).map QRow.text

/-- The lookup-by-text / insert-if-absent performed before storing a
generated or emergency question; returns the updated store and the id. -/
def persistQuestionText (db : Db) (text : String) : Db × Nat :=
  match db.questions.find? (fun q => q.text = text) with
  | some q => (db, q.id)
  | none =>
      ({ db with
          questions := db.questions ++ [⟨db.nextQuestionId, text⟩]
          nextQuestionId := db.nextQuestionId + 1 },
       db.nextQuestionId)

/-- `INSERT INTO domain_questions (domain, question_id, position) VALUES
(...) ON CONFLICT DO NOTHING`: the schema declares no unique constraint on
`domain_questions`, so the conflict clause never fires and the row is
always inserted, with the schema defaults usage_count 0, effectiveness 0.5. -/
def registerSlot (db : Db) (domain : String) (qid : Nat) (pos : Nat) : Db :=
  { db with
      domain_questions :=
        db.domain_questions ++ [⟨db.nextSlotRowId, domain, qid, some pos, 0, 1/2⟩]
      nextSlotRowId := db.nextSlotRowId + 1 }

/-! ## The cached-question query of `get_next_question` -/

/-- The SQL parameter `tuple(asked_questions) if asked_questions else ('',)`:
with an empty asked list the query excludes the empty text instead. -/
def cacheExcluded (asked : List String) : List String :=
  if asked = [] then [""] else asked

/-- The rows produced by
`SELECT dq.question_id, q.question_text, dq.effectiveness FROM
domain_questions dq JOIN questions q ON dq.question_id = q.id WHERE
dq.domain = %s AND q.question_text NOT IN %s` — note: no position filter. -/
def cacheCandidates (db : Db) (domain : String) (asked : List String) :
    List (DQRow × String) :=
  db.domain_questions.filterMap (fun dq =>
    match db.questions.find? (fun q => q.id = dq.question_id) with
    | some q =>
        if dq.domain = domain ∧ q.text ∉ cacheExcluded asked then some (dq, q.text)
        else none
    | none => none)

/-- `ORDER BY dq.effectiveness DESC, RANDOM() LIMIT 1`: the random sort key
is modelled as an explicit ranking `rank` of the slot row ids (lower rank =
earlier among equal effectiveness); the selected row maximises
effectiveness, with `rank` deciding ties. -/
def pickBetter (rank : Nat → Nat) (best : Option (DQRow × String))
    (c : DQRow × String) : Option (DQRow × String) :=
  match best with
  | none => some c
  | some b =>
      if b.1.effectiveness < c.1.effectiveness ∨
         (c.1.effectiveness = b.1.effectiveness ∧ rank c.1.rowId < rank b.1.rowId)
      then some c else some b

def selectCached (db : Db) (domain : String) (asked : List String)
    (rank : Nat → Nat) : Option (DQRow × String) :=
  (cacheCandidates db domain asked).foldl (pickBetter rank) none

/-- The cache-tier selection as the spec's §4.3 words it (for comparison
with `selectCached`, which embeds the code): restrict to the slots of the
session's (domain, position), exclude texts already asked, take the
highest effectiveness with ties broken by usage_count. -/
def selectCachedSpec (db : Db) (domain : String) (position : Nat)
    (asked : List String) : Option (DQRow × String) :=
  (db.domain_questions.filterMap (fun dq =>
      match db.questions.find? (fun q => q.id = dq.question_id) with
      | some q =>
          if dq.domain = domain ∧ dq.position = some position ∧ q.text ∉ asked then
            some (dq, q.text)
          else none
      | none => none)).foldl
    (fun best c =>
      match best with
      | none => some c
      | some b =>
          if b.1.effectiveness < c.1.effectiveness ∨
             (c.1.effectiveness = b.1.effectiveness ∧
               b.1.usage_count < c.1.usage_count)
          then some c else some b)
    none

/-- The cache tier's
`UPDATE domain_questions SET usage_count = usage_count + 1, position = CASE
WHEN position IS NULL THEN %s ELSE position END WHERE question_id = %s AND
domain = %s` — it touches every row matching (domain, question_id). -/
def touchCachedSlot (db : Db) (domain : String) (qid : Nat) (pos : Nat) : Db :=
  { db with
      domain_questions := db.domain_questions.map (fun r =>
        if r.question_id = qid ∧ r.domain = domain then
          { r with
              usage_count := r.usage_count + 1
              position := some (r.position.getD pos) }
        else r) }

/-! ## `get_next_question` -/

/-- Which tier produced the returned question (ghost information for the
theorems; it does not influence the computation). -/
inductive QuestionSource
  | generated
  | cached
  | emergency
deriving DecidableEq, Repr

/-- Outcomes of the external calls made by one `get_next_question` call:
the (validated) text returned by `generate_question` (`none` for a quota,
transport or validation failure), whether the persistence and session
writes of each tier succeed, the random tie-break ranking of the cache
query, and a fuel bound for the emergency retry loop. -/
structure GNQEnv where
  genText : Option String
  genPersistOk : Bool
  cachePersistOk : Bool
  emergencyPersistOk : Bool
  rank : Nat → Nat
  fuel : Nat

/-- How a `get_next_question` call can fail to return: an uncaught
exception, or the emergency retry loop spinning past the given fuel. -/
inductive GNQFailure
  | raised
  | nonterminating
deriving DecidableEq, Repr

/-- A successful `get_next_question` return: the `(question_id,
question_text, error)` triple (`errMsg` records whether the third
component is a non-None fallback message), the updated store and session,
plus ghost flags for the theorems. -/
structure GNQOut where
  question_id : Nat
  question_text : String
  errMsg : Bool
  db : Db
  state : GameState
  source : QuestionSource
  genAttempted : Bool
  cacheQueried : Bool
deriving Repr

/-- The session update every successful tier performs exactly once:
append the text to `asked_questions` and set `current_question_id`. -/
def askState (st : GameState) (text : String) (qid : Nat) : GameState :=
  { st with
      asked_questions := st.asked_questions ++ [text]
      current_question_id := some qid }

/-- Tier 1 of `get_next_question` (lines 41–84): AI generation inside
try/except; on a validated text and successful persistence, store the
question, register a slot at the current position, update the session. -/
def genTier (db : Db) (st : GameState) (env : GNQEnv) : Option GNQOut :=
  match env.genText with
  | some t =>
      if env.genPersistOk then
        let p := persistQuestionText db t
        let db2 := registerSlot p.1 st.domain p.2 st.questions_asked
        some ⟨p.2, t, false, db2, askState st t p.2, .generated, true, false⟩
      else none
  | none => none

/-- Tier 2 of `get_next_question` (lines 85–131): the cached-question
query inside try/except; on a hit, bump usage, update the session. -/
def cacheTier (db : Db) (st : GameState) (env : GNQEnv) : Option GNQOut :=
  if env.cachePersistOk then
    match selectCached db st.domain st.asked_questions env.rank with
    | some c =>
        let db1 := touchCachedSlot db st.domain c.1.question_id st.questions_asked
        some ⟨c.1.question_id, c.2, false, db1, askState st c.2 c.1.question_id,
              .cached, true, true⟩
    | none => none
  else none

/-- Tier 3 of `get_next_question` (lines 133–170): the emergency template
with its retry loop, followed by unprotected persistence — a store or
session failure here is an uncaught exception. -/
def emergencyTier (db : Db) (st : GameState) (env : GNQEnv) :
    Except GNQFailure GNQOut :=
  match findUnusedEmergency st.domain st.asked_questions env.fuel
      (create_emergency_question st.domain st.asked_questions.length) with
  | none => .error .nonterminating
  | some t =>
      if env.emergencyPersistOk then
        let p := persistQuestionText db t
        let db2 := registerSlot p.1 st.domain p.2 st.questions_asked
        .ok ⟨p.2, t, true, db2, askState st t p.2, .emergency, true,
             env.cachePersistOk⟩
      else .error .raised

/-- Embedding of `get_next_question` (session assumed to exist).  The
code attempts AI generation first (inside try/except), then the cached
question (inside try/except), then the emergency template; the emergency
tier's database and session writes are not protected by any handler, so
their failure is an uncaught exception.  A tier whose persistence fails is
modelled as leaving the store unchanged (the partial transaction is rolled
back) and falling through. -/
def get_next_question (db : Db) (st : GameState) (env : GNQEnv) :
    Except GNQFailure GNQOut :=
  match genTier db st env with
  | some out => .ok out
  | none =>
      match cacheTier db st env with
      | some out => .ok out
      | none => emergencyTier db st env

/-! ## `submit_answer` -/

/-- The session-side text resolution of `submit_answer`: the last asked
text, provided the id matches `current_question_id` and the asked list is
non-empty; a falsy (empty) text counts as unresolved. -/
def resolveSessionText (st : GameState) (question_id : Nat) : Option String :=
  match (if st.current_question_id = some question_id then
      st.asked_questions.getLast? else none) with
  | some t => if t = "" then none else some t
  | none => none

/-- The successful tail of `submit_answer`: append the Q&A record and
increment the counter, returning the new count. -/
def recordAnswer (st : GameState) (question_id : Nat) (answer : String)
    (t : String) : GameState × Option Nat :=
  ({ st with
      question_history := st.question_history ++ [⟨question_id, t, answer⟩]
      questions_asked := st.questions_asked + 1 },
   some (st.questions_asked + 1))

/-- Embedding of `submit_answer` (session assumed to exist): resolve the
question text from the session if the id matches `current_question_id` and
the asked list is non-empty (an empty resolved text is falsy in Python and
treated as missing), otherwise from the `questions` table; on failure
return `none` ("Question not found") with the session unchanged, otherwise
append the Q&A record and increment the counter together. -/
def submit_answer (db : Db) (st : GameState) (question_id : Nat)
    (answer : String) : GameState × Option Nat :=
  match resolveSessionText st question_id with
  | some t => recordAnswer st question_id answer t
  | none =>
      match textOf db question_id with
      | none => (st, none)
      | some t => recordAnswer st question_id answer t

/-! ## `make_guess` and `generate_guess` -/

/-- Stable insertion into a list sorted by the boolean relation `le`
(`le a b` = `a` may stay before `b`). -/
def insertSorted (le : α → α → Bool) (a : α) : List α → List α
  | [] => [a]
  | b :: bs => if le a b then a :: b :: bs else b :: insertSorted le a bs

/-- Stable insertion sort; a deterministic instance of the order an SQL
`ORDER BY` may return rows in (ties keep their table order). -/
def sortRows (le : α → α → Bool) : List α → List α
  | [] => []
  | a :: as => insertSorted le a (sortRows le as)

/-- SQL `=` between two nullable text values: NULL compares equal to
nothing, not even NULL. -/
def sqlStrEq : Option String → Option String → Bool
  | some a, some b => a = b
  | _, _ => false

/-- Building a Python dict from a (question_id, answer) list; a later
binding of the same key overwrites an earlier one. -/
def patternOfList (l : List (Nat × String)) : Pattern :=
  { keys := (l.map Prod.fst).toFinset
    ans := fun q => ((l.reverse.find? (fun p => p.1 = q)).map Prod.snd).getD "" }

/-- The session's answer pattern built at the top of `make_guess`. -/
def sessionPattern (st : GameState) : Pattern :=
  patternOfList (st.question_history.map (fun qr => (qr.question_id, qr.answer)))

/-- `SELECT entity_name, success_count FROM domain_guesses WHERE domain =
%s AND success_count > 0 ORDER BY success_count DESC LIMIT 10`. -/
def cachedGuesses (db : Db) (domain : String) : List GuessRow :=
  (sortRows (fun a b => b.success_count ≤ a.success_count)
    (db.domain_guesses.filter (fun r => r.domain = domain ∧ 0 < r.success_count))).take 10

/-- `SELECT id FROM game_history WHERE target_entity = %s AND domain = %s
AND was_correct = TRUE LIMIT 5` for one candidate entity. -/
def successfulGames (db : Db) (domain : String) (entity : Option String) :
    List GameHistRow :=
  (db.game_history.filter
    (fun g => sqlStrEq g.target_entity entity ∧ g.domain = domain ∧ g.was_correct)).take 5

/-- The answer pattern of one recorded game: its `game_questions` rows
ordered by `ask_order`, rebuilt into a dict. -/
def gamePattern (db : Db) (gameId : String) : Pattern :=
  patternOfList
    ((sortRows (fun a b => a.ask_order ≤ b.ask_order)
        (db.game_questions.filter (fun r => r.game_id = gameId))).map
      (fun r => (r.question_id, r.answer)))

/-- The double fold of `make_guess` over cached guesses and their
successful games, tracking the best strict improvement over score 0:
returns `(best_match_score, best_match_guess)`. -/
def bestMatch (db : Db) (domain : String) (cur : Pattern) : ℚ × Option String :=
  (cachedGuesses db domain).foldl
    (fun acc gr =>
      (successfulGames db domain gr.entity_name).foldl
        (fun acc2 g =>
          let score := calculate_pattern_similarity cur (gamePattern db g.id)
          if acc2.1 < score then (score, gr.entity_name) else acc2)
        acc)
    ((0 : ℚ), none)

/-- The static per-domain fallback table `common_items` of
`generate_guess`, consulted with the lowercased domain. -/
def common_items : List (String × String) :=
  [("animal", "dog"), ("food", "pizza"), ("movie", "Avatar"),
   ("book", "Harry Potter"), ("sport", "soccer"), ("country", "France"),
   ("car", "Toyota"), ("technology", "smartphone"), ("game", "chess")]

/-- Embedding of `generate_guess`: on any AI/quota failure (modelled by
`aiResult = none`) fall back to the static table, else to
`"popular {domain}"`; the Bool records whether an error note is attached.
The function never raises and never returns a None guess. -/
def generate_guess (domain : String) (aiResult : Option String) : String × Bool :=
  match aiResult with
  | some g => (g, false)
  | none =>
      (((common_items.find? (fun p => p.1 = domain.toLower)).map Prod.snd).getD
        ("popular " ++ domain), true)

/-- `guess[0].upper() + guess[1:]` guarded by `if guess and len(guess) > 0`. -/
def capitalizeFirst (s : String) : String :=
  if 0 < s.length then s.front.toUpper.toString ++ s.drop 1 else s

/-- Outcomes of the external calls made by one `make_guess` call: whether
the (unprotected) pattern-match database reads succeed, and the raw AI
guess text (`none` = the AI/quota path failed and the static fallback is
used). -/
structure GuessEnv where
  dbOk : Bool
  aiResult : Option String

/-- Which branch produced the guess (ghost information). -/
inductive GuessSource
  | patternMatch
  | aiPath
deriving DecidableEq, Repr

/-- A successful `make_guess` return. -/
structure MakeGuessOut where
  guess : String
  asked_count : Nat
  source : GuessSource
deriving DecidableEq, Repr

/-- Embedding of `make_guess` (session assumed to exist): the cached
pattern-match scan runs first — its database reads are not inside any
try/except, so their failure is an uncaught exception (`.error`); a best
match with score ≥ 0.7 and a truthy entity name is returned as-is;
otherwise the guess comes from `generate_guess` and only then is its first
character capitalized. -/
def make_guess (db : Db) (st : GameState) (env : GuessEnv) :
    Except Unit MakeGuessOut :=
  if env.dbOk then
    match (bestMatch db st.domain (sessionPattern st)).2 with
    | some g =>
        if (7 : ℚ)/10 ≤ (bestMatch db st.domain (sessionPattern st)).1 ∧ g ≠ "" then
          .ok ⟨g, st.questions_asked, .patternMatch⟩
        else
          .ok ⟨capitalizeFirst (generate_guess st.domain env.aiResult).1,
               st.questions_asked, .aiPath⟩
    | none =>
        .ok ⟨capitalizeFirst (generate_guess st.domain env.aiResult).1,
             st.questions_asked, .aiPath⟩
  else .error ()

/-! ## `submit_game_result` -/

/-- The per-record effectiveness adjustment loop: for every history
record, every `domain_questions` row matching (domain, question_id) gets
`effectiveness + delta`; a question id occurring k times in the history is
adjusted k times. -/
def bumpRows (domain : String) (qid : Nat) (delta : ℚ) (rows : List DQRow) :
    List DQRow :=
  rows.map (fun r =>
    if r.domain = domain ∧ r.question_id = qid then
      { r with effectiveness := r.effectiveness + delta }
    else r)

def applyEffRows (domain : String) (delta : ℚ) (hist : List QRecord)
    (rows : List DQRow) : List DQRow :=
  hist.foldl (fun rs qr => bumpRows domain qr.question_id delta rs) rows

def applyEffectiveness (db : Db) (domain : String) (hist : List QRecord)
    (delta : ℚ) : Db :=
  { db with
      domain_questions := applyEffRows domain delta hist db.domain_questions }

/-- The guess-statistics upsert at the end of `submit_game_result`:
lookup by (domain, entity) with SQL equality, then update the found row by
its primary key, or insert a fresh row whose other counter takes the
schema default 0.  On an incorrect result a falsy (`None` or empty)
entity skips the upsert entirely. -/
def upsertGuess (db : Db) (domain : String) (entity : Option String)
    (was_correct : Bool) : Db :=
  if was_correct then
    match db.domain_guesses.find?
        (fun r => r.domain = domain ∧ sqlStrEq r.entity_name entity) with
    | some row =>
        { db with
            domain_guesses := db.domain_guesses.map (fun r =>
              if r.rowId = row.rowId then
                { r with success_count := r.success_count + 1 }
              else r) }
    | none =>
        { db with
            domain_guesses :=
              db.domain_guesses ++ [⟨db.nextGuessRowId, domain, entity, 1, 0⟩]
            nextGuessRowId := db.nextGuessRowId + 1 }
  else
    match entity with
    | some e =>
        if e = "" then db
        else
          match db.domain_guesses.find?
              (fun r => r.domain = domain ∧ sqlStrEq r.entity_name (some e)) with
          | some row =>
              { db with
                  domain_guesses := db.domain_guesses.map (fun r =>
                    if r.rowId = row.rowId then
                      { r with fail_count := r.fail_count + 1 }
                    else r) }
          | none =>
              { db with
                  domain_guesses :=
                    db.domain_guesses ++ [⟨db.nextGuessRowId, domain, some e, 0, 1⟩]
                  nextGuessRowId := db.nextGuessRowId + 1 }
    | none => db

/-- Embedding of `submit_game_result` (session assumed to exist): append
the game-history row and the per-question transcript, apply the
effectiveness feedback (+0.1 on a correct outcome, −0.05 otherwise), then
upsert the guess statistics. -/
def submit_game_result (db : Db) (sessionId : String) (st : GameState)
    (was_correct : Bool) (actual_entity : Option String) : Db :=
  let db1 :=
    { db with
        game_history :=
          db.game_history ++
            [({ id := sessionId, target_entity := actual_entity, domain := st.domain
                was_correct := was_correct } : GameHistRow)] }
  let db2 :=
    { db1 with
        game_questions :=
          db1.game_questions ++
            (st.question_history.enum.map
              (fun p =>
                ({ game_id := sessionId, question_id := p.2.question_id
                   answer := p.2.answer, ask_order := p.1 } : GameQRow))) }
  let db3 :=
    applyEffectiveness db2 st.domain st.question_history
      (if was_correct then 1/10 else -(1/20))
  upsertGuess db3 st.domain actual_entity was_correct

/-! # Theorems

## Claim C3 — properties of `calculate_pattern_similarity` -/

lemma commonQuestions_comm (p1 p2 : Pattern) :
    commonQuestions p2 p1 = commonQuestions p1 p2 :=
  Finset.inter_comm _ _

lemma matchCount_comm (p1 p2 : Pattern) : matchCount p2 p1 = matchCount p1 p2 := by
  unfold matchCount
  rw [commonQuestions_comm]
  congr 1
  exact Finset.filter_congr fun q _ => eq_comm

/-- The empty answer pattern: a session with no recorded answers. -/
def emptyPattern : Pattern := ⟨∅, fun _ => ""⟩

/-- A one-question pattern answering "yes" to question 1. -/
def singletonPattern : Pattern := ⟨{1}, fun _ => "yes"⟩

/-- Claim C3 counterexample: two patterns with equal key sets and equal
answers on every key — both empty — score 0.0 (the empty-intersection
guard fires first), not the claimed 1.0. -/
theorem similarity_identical_empty_counterexample :
    emptyPattern.keys = emptyPattern.keys ∧
      calculate_pattern_similarity emptyPattern emptyPattern = 0 ∧
      calculate_pattern_similarity emptyPattern emptyPattern ≠ 1 := by
  refine ⟨rfl, ?_, ?_⟩ <;>
    simp [calculate_pattern_similarity, commonQuestions, emptyPattern]

/-- Claim C3 (amended): the similarity score is symmetric; identical
patterns over the same nonempty key set score 1.0 (two empty patterns
score 0.0 instead — see the counterexample); disjoint key sets score 0.0;
and on a nonempty intersection the score is 0.7 × (matching fraction over
the intersection) + 0.3 × (|intersection| / max(|p1|, |p2|)). -/
theorem calculate_pattern_similarity_spec :
    (∀ p1 p2 : Pattern,
      calculate_pattern_similarity p1 p2 = calculate_pattern_similarity p2 p1)
    ∧ (∀ p1 p2 : Pattern, p1.keys = p2.keys → p1.keys.Nonempty →
        (∀ q ∈ p1.keys, p1.ans q = p2.ans q) →
        calculate_pattern_similarity p1 p2 = 1)
    ∧ (∀ p1 p2 : Pattern, Disjoint p1.keys p2.keys →
        calculate_pattern_similarity p1 p2 = 0)
    ∧ (∀ p1 p2 : Pattern, commonQuestions p1 p2 ≠ ∅ →
        calculate_pattern_similarity p1 p2 =
          (matchCount p1 p2 : ℚ) / ((commonQuestions p1 p2).card : ℚ) * (7/10) +
            ((commonQuestions p1 p2).card : ℚ) /
              (max p1.keys.card p2.keys.card : ℚ) * (3/10)) := by
  refine ⟨?_, ?_, ?_, ?_⟩
  · intro p1 p2
    unfold calculate_pattern_similarity
    rw [commonQuestions_comm p1 p2, matchCount_comm p1 p2,
      max_comm (p2.keys.card : ℚ) (p1.keys.card : ℚ)]
  · intro p1 p2 hkeys hne hans
    have hc : commonQuestions p1 p2 = p1.keys := by
      rw [commonQuestions, ← hkeys, Finset.inter_self]
    have hm : matchCount p1 p2 = p1.keys.card := by
      rw [matchCount, hc]
      congr 1
      apply Finset.filter_true_of_mem
      intro q hq
      rw [hans q hq]
    have hcard : (p1.keys.card : ℚ) ≠ 0 := by
      exact_mod_cast Finset.card_ne_zero.mpr hne
    rw [calculate_pattern_similarity, if_neg (by
      rw [hc]
      exact Finset.nonempty_iff_ne_empty.mp hne)]
    rw [hm, hc, ← hkeys, max_self ((p1.keys.card : ℚ)), div_self hcard]
    norm_num
  · intro p1 p2 hdisj
    have hd : commonQuestions p1 p2 = ∅ := by
      rw [commonQuestions]
      exact Finset.disjoint_iff_inter_eq_empty.mp hdisj
    rw [calculate_pattern_similarity, if_pos hd]
  · intro p1 p2 hne
    rw [calculate_pattern_similarity, if_neg hne]

/-- Witness for claim C3's theorem at a concrete input: the identical
one-question patterns score exactly 1. -/
theorem calculate_pattern_similarity_spec_witness :
    singletonPattern.keys = singletonPattern.keys ∧
      singletonPattern.keys.Nonempty ∧
      calculate_pattern_similarity singletonPattern singletonPattern = 1 :=
  ⟨rfl, ⟨1, by decide⟩,
    calculate_pattern_similarity_spec.2.1 singletonPattern singletonPattern rfl
      ⟨1, by decide⟩ (fun _ _ => rfl)⟩

/-! ## Claim C2 — `check_and_increment` in a stale minute bucket -/

/-- Minute limit 10, day limit 100. -/
def rlCfg : QuotaConfig := ⟨10, 100⟩

/-- The call happens in minute 12:01. -/
def rlClock : Clock := ⟨"2025-01-01-12-01", "2025-01-01"⟩

/-- Stored quota: 5 calls recorded in the previous minute (12:00, a stale
bucket whose Redis key has not yet expired), day bucket current. -/
def rlStale : QuotaState := ⟨5, 5, some "2025-01-01-12-00", some "2025-01-01"⟩

/-- Stored quota: minute bucket stale, day counter at its ceiling. -/
def rlDayFull : QuotaState := ⟨5, 100, some "2025-01-01-12-00", some "2025-01-01"⟩

/-- Claim C2 counterexample: the stored minute counter is never reset,
only the local copy is, so after k = 2 successful calls in the new minute
the stored (and, because the bucket id was updated, observable) minute
count is 5 + 2 = 7, not 2; and a rejected call in a stale minute bucket
still mutates the stored bucket ids. -/
theorem check_and_increment_counterexample :
    rlStale.lastMinute ≠ some rlClock.currentMinute ∧
    (check_and_increment rlCfg rlClock rlStale).1 = true ∧
    (check_and_increment rlCfg rlClock
        (check_and_increment rlCfg rlClock rlStale).2).1 = true ∧
    (check_and_increment rlCfg rlClock
        (check_and_increment rlCfg rlClock rlStale).2).2.minuteCount = 7 ∧
    (check_and_increment rlCfg rlClock
        (check_and_increment rlCfg rlClock rlStale).2).2.lastMinute =
      some rlClock.currentMinute ∧
    (7 : Nat) ≠ 2 ∧
    (check_and_increment rlCfg rlClock rlDayFull).1 = false ∧
    (check_and_increment rlCfg rlClock rlDayFull).2 ≠ rlDayFull := by
  decide

/-- Claim C2 (amended): in a stale minute bucket the accept/reject
decision does treat the prior minute count as zero — the call succeeds iff
the minute limit is positive and the (bucket-reset) day count is below the
day limit; a rejected call leaves both counters unchanged (though it does
update the stale bucket ids, and the stale stored count is left in place);
a successful call increments the raw stored minute counter, so the stored
count after it is the old stored count + 1, not 1. -/
theorem check_and_increment_stale_minute (cfg : QuotaConfig) (now : Clock)
    (s : QuotaState) (hstale : s.lastMinute ≠ some now.currentMinute) :
    ((check_and_increment cfg now s).1 =
        (check_and_increment cfg now { s with minuteCount := 0 }).1)
    ∧ ((check_and_increment cfg now s).1 = true ↔
        0 < cfg.rpm_limit ∧
          (if s.lastDay ≠ some now.currentDay then 0 else s.dayCount) <
            cfg.rpd_limit)
    ∧ ((check_and_increment cfg now s).1 = false →
        (check_and_increment cfg now s).2.minuteCount = s.minuteCount ∧
          (check_and_increment cfg now s).2.dayCount = s.dayCount)
    ∧ ((check_and_increment cfg now s).1 = true →
        (check_and_increment cfg now s).2.minuteCount = s.minuteCount + 1) := by
  unfold check_and_increment
  simp only [hstale, if_true, ne_eq, not_false_eq_true, ite_true]
  split_ifs <;> simp_all <;> omega

/-- Witness for claim C2's amended theorem at the concrete stale-bucket
input. -/
theorem check_and_increment_stale_minute_witness :
    rlStale.lastMinute ≠ some rlClock.currentMinute ∧
      ((check_and_increment rlCfg rlClock rlStale).1 = true ↔
        0 < rlCfg.rpm_limit ∧
          (if rlStale.lastDay ≠ some rlClock.currentDay then 0
            else rlStale.dayCount) < rlCfg.rpd_limit) :=
  ⟨by decide,
    (check_and_increment_stale_minute rlCfg rlClock rlStale (by decide)).2.1⟩

/-! ## Claim C7 — the emergency retry loop can cycle forever -/

/-- Claim C7 failing input: a session for domain "thing" whose asked list
holds exactly these five texts — each one an emergency template the
service itself produces for this domain at some index. -/
def thingAsked : List String :=
  ["Is this thing considered popular?",
   "Has this thing existed for more than 48 years?",
   "Is this thing something most people know about?",
   "Is this thing commonly used?",
   "Has this thing existed for more than 43 years?"]

/-- The successive candidates the retry loop computes on that input:
the initial `create_emergency_question(domain, len(asked_questions))`,
then one `emergencyStep` per iteration. -/
def emergencySeqThing : Nat → String
  | 0 => create_emergency_question "thing" thingAsked.length
  | Nat.succ k => emergencyStep "thing" thingAsked.length (emergencySeqThing k)

lemma emergencySeqThing_succ (k : Nat) :
    emergencySeqThing (k + 1) =
      emergencyStep "thing" thingAsked.length (emergencySeqThing k) := rfl

/-- The perturbation is the length of the current candidate, which is not
growing: the sequence enters the 3-cycle q₂ → q₃ → q₄ → q₂. -/
lemma emergencySeqThing_periodic (k : Nat) :
    emergencySeqThing (k + 5) = emergencySeqThing (k + 2) := by
  induction k with
  | zero => decide
  | succ n ih =>
      have e5 : n + 1 + 5 = (n + 5) + 1 := by omega
      have e2 : n + 1 + 2 = (n + 2) + 1 := by omega
      rw [e5, e2, emergencySeqThing_succ (n + 5), emergencySeqThing_succ (n + 2), ih]

/-- Claim C7: the spec guarantees the emergency retry loop terminates, but
the code's perturbation (the current candidate's length) is not growing:
on the failing input every candidate the loop ever computes is already in
the asked list, so the loop guard never becomes false and
`findUnusedEmergency` returns nothing for every fuel bound — the Python
`while` loop never exits and no unasked templated text is returned. -/
theorem emergency_loop_diverges :
    (∀ k, emergencySeqThing k ∈ thingAsked) ∧
      (∀ fuel, findUnusedEmergency "thing" thingAsked fuel
          (create_emergency_question "thing" thingAsked.length) = none) := by
  have hmem : ∀ k, emergencySeqThing k ∈ thingAsked := by
    intro k
    induction k using Nat.strong_induction_on with
    | _ k ih =>
      rcases k with _ | _ | _ | _ | _ | m
      · decide
      · decide
      · decide
      · decide
      · decide
      · show emergencySeqThing (m + 5) ∈ thingAsked
        rw [emergencySeqThing_periodic m]
        exact ih (m + 2) (by omega)
  refine ⟨hmem, ?_⟩
  have hgen : ∀ fuel k,
      findUnusedEmergency "thing" thingAsked fuel (emergencySeqThing k) = none := by
    intro fuel
    induction fuel with
    | zero =>
        intro k
        simp [findUnusedEmergency, hmem k]
    | succ n ih =>
        intro k
        rw [findUnusedEmergency, if_pos (hmem k), ← emergencySeqThing_succ]
        exact ih (k + 1)
  exact fun fuel => hgen fuel 0

/-! ## Claim C9 — history length equals the asked-count -/

/-- The session invariant of claim C9. -/
def historyInvariant (st : GameState) : Prop :=
  st.question_history.length = st.questions_asked

lemma genTier_session (db : Db) (st : GameState) (env : GNQEnv) (out : GNQOut)
    (h : genTier db st env = some out) :
    out.state.question_history = st.question_history ∧
      out.state.questions_asked = st.questions_asked := by
  unfold genTier at h
  split at h
  · split at h
    · cases h
      exact ⟨rfl, rfl⟩
    · cases h
  · cases h

lemma cacheTier_session (db : Db) (st : GameState) (env : GNQEnv) (out : GNQOut)
    (h : cacheTier db st env = some out) :
    out.state.question_history = st.question_history ∧
      out.state.questions_asked = st.questions_asked := by
  unfold cacheTier at h
  split at h
  · split at h
    · cases h
      exact ⟨rfl, rfl⟩
    · cases h
  · cases h

lemma emergencyTier_session (db : Db) (st : GameState) (env : GNQEnv)
    (out : GNQOut) (h : emergencyTier db st env = Except.ok out) :
    out.state.question_history = st.question_history ∧
      out.state.questions_asked = st.questions_asked := by
  unfold emergencyTier at h
  split at h
  · cases h
  · split at h
    · cases h
      exact ⟨rfl, rfl⟩
    · cases h

/-- Claim C9: the invariant `len(question_history) = questions_asked`
holds after `start_new_game` (both zero/empty) and is preserved by
`get_next_question` (which touches neither field), by `submit_answer`
(which on success appends the record and increments the counter in the
same call, and on failure changes nothing), and by `make_guess` (which
only reads the session and reports the unchanged counter). -/
theorem session_history_invariant :
    (∀ domain, historyInvariant (start_new_game domain))
    ∧ (∀ db st env out, get_next_question db st env = Except.ok out →
        historyInvariant st → historyInvariant out.state)
    ∧ (∀ db st qid ans, historyInvariant st →
        historyInvariant (submit_answer db st qid ans).1)
    ∧ (∀ db st env r, make_guess db st env = Except.ok r →
        r.asked_count = st.questions_asked) := by
  refine ⟨fun _ => rfl, ?_, ?_, ?_⟩
  · intro db st env out hok hinv
    have hstate : out.state.question_history = st.question_history ∧
        out.state.questions_asked = st.questions_asked := by
      unfold get_next_question at hok
      split at hok
      · rename_i o1 hg
        cases hok
        exact genTier_session _ _ _ _ hg
      · rename_i hg
        split at hok
        · rename_i o2 hc
          cases hok
          exact cacheTier_session _ _ _ _ hc
        · rename_i hc
          exact emergencyTier_session _ _ _ _ hok
    unfold historyInvariant at hinv ⊢
    rw [hstate.1, hstate.2]
    exact hinv
  · intro db st qid ans hinv
    unfold submit_answer
    split
    · simp only [recordAnswer, historyInvariant, List.length_append,
        List.length_singleton]
      exact congrArg (· + 1) hinv
    · split
      · exact hinv
      · simp only [recordAnswer, historyInvariant, List.length_append,
          List.length_singleton]
        exact congrArg (· + 1) hinv
  · intro db st env r hok
    unfold make_guess at hok
    split at hok
    · split at hok
      · split at hok
        · cases hok
          rfl
        · cases hok
          rfl
      · cases hok
        rfl
    · cases hok

/-- The empty relational store. -/
def emptyDb : Db := ⟨[], 1, [], 1, [], 1, [], []⟩

/-- Witness for claim C9's theorem: the invariant holds concretely for a
fresh session and is preserved by a concrete `submit_answer` call (which
fails with "Question not found" on the empty store, leaving the session
unchanged). -/
theorem session_history_invariant_witness :
    historyInvariant (start_new_game "animal") ∧
      historyInvariant (submit_answer emptyDb (start_new_game "animal") 1 "yes").1 :=
  ⟨session_history_invariant.1 "animal",
    session_history_invariant.2.2.1 emptyDb (start_new_game "animal") 1 "yes"
      (session_history_invariant.1 "animal")⟩

/-! ## Claim C10 — `submit_answer` accepts any known question id -/

/-- Claim C10: `submit_answer` accepts any question id: the text is taken
from the session when the id matches `current_question_id` (and a last
asked question exists), otherwise resolved from the durable `questions`
table; the call returns the "Question not found" error — leaving the
session unchanged — exactly when neither source resolves it, and
otherwise appends the Q&A record and increments the counter.  (Hypothesis:
the session's asked texts are non-empty strings, which every question
producing path guarantees; an empty text would be falsy in Python.) -/
theorem submit_answer_spec (db : Db) (st : GameState) (qid : Nat) (ans : String)
    (hne : "" ∉ st.asked_questions) :
    ((submit_answer db st qid ans).2 = none ↔
      ¬(st.current_question_id = some qid ∧ st.asked_questions ≠ []) ∧
        textOf db qid = none)
    ∧ ((submit_answer db st qid ans).2 = none →
        (submit_answer db st qid ans).1 = st)
    ∧ ((submit_answer db st qid ans).2 ≠ none →
        ∃ t, (submit_answer db st qid ans).1 =
            { st with
                question_history := st.question_history ++ [⟨qid, t, ans⟩]
                questions_asked := st.questions_asked + 1 } ∧
          (submit_answer db st qid ans).2 = some (st.questions_asked + 1)) := by
  by_cases hcur : st.current_question_id = some qid
  · rcases hl : st.asked_questions.getLast? with _ | l
    · have hempty : st.asked_questions = [] := List.getLast?_eq_none_iff.mp hl
      have hres : resolveSessionText st qid = none := by
        simp [resolveSessionText, hcur, hl]
      rcases ht : textOf db qid with _ | t
      · have hS : submit_answer db st qid ans = (st, none) := by
          simp [submit_answer, hres, ht]
        refine ⟨?_, ?_, ?_⟩
        · rw [hS]
          simp [hempty, ht]
        · intro _
          rw [hS]
        · rw [hS]
          intro h
          exact absurd rfl h
      · have hS : submit_answer db st qid ans = recordAnswer st qid ans t := by
          simp [submit_answer, hres, ht]
        refine ⟨?_, ?_, ?_⟩
        · rw [hS]
          simp [recordAnswer, ht]
        · rw [hS]
          intro h
          simp [recordAnswer] at h
        · intro _
          exact ⟨t, by rw [hS]; rfl, by rw [hS]; rfl⟩
    · have hmem : l ∈ st.asked_questions := List.mem_of_mem_getLast? hl
      have hlne : l ≠ "" := fun h => hne (h ▸ hmem)
      have hnonempty : st.asked_questions ≠ [] := by
        intro h
        rw [h] at hl
        simp at hl
      have hres : resolveSessionText st qid = some l := by
        simp [resolveSessionText, hcur, hl, hlne]
      have hS : submit_answer db st qid ans = recordAnswer st qid ans l := by
        simp [submit_answer, hres]
      refine ⟨?_, ?_, ?_⟩
      · rw [hS]
        simp [recordAnswer, hcur, hnonempty]
      · rw [hS]
        intro h
        simp [recordAnswer] at h
      · intro _
        exact ⟨l, by rw [hS]; rfl, by rw [hS]; rfl⟩
  · have hres : resolveSessionText st qid = none := by
      simp [resolveSessionText, hcur]
    rcases ht : textOf db qid with _ | t
    · have hS : submit_answer db st qid ans = (st, none) := by
        simp [submit_answer, hres, ht]
      refine ⟨?_, ?_, ?_⟩
      · rw [hS]
        simp [hcur, ht]
      · intro _
        rw [hS]
      · rw [hS]
        intro h
        exact absurd rfl h
    · have hS : submit_answer db st qid ans = recordAnswer st qid ans t := by
        simp [submit_answer, hres, ht]
      refine ⟨?_, ?_, ?_⟩
      · rw [hS]
        simp [recordAnswer, ht]
      · rw [hS]
        intro h
        simp [recordAnswer] at h
      · intro _
        exact ⟨t, by rw [hS]; rfl, by rw [hS]; rfl⟩

/-- A store holding the single question (id 1, "Is it alive?"). -/
def oneQuestionDb : Db :=
  { emptyDb with questions := [⟨1, "Is it alive?"⟩], nextQuestionId := 2 }

/-- Witness for claim C10's theorem: on a fresh session (no current
question) with the one-question store, submitting an answer for id 1
resolves via the table and succeeds. -/
theorem submit_answer_spec_witness :
    "" ∉ (start_new_game "animal").asked_questions ∧
      ((submit_answer oneQuestionDb (start_new_game "animal") 1 "yes").2 = none ↔
        ¬((start_new_game "animal").current_question_id = some 1 ∧
            (start_new_game "animal").asked_questions ≠ []) ∧
          textOf oneQuestionDb 1 = none) :=
  ⟨by decide,
    (submit_answer_spec oneQuestionDb (start_new_game "animal") 1 "yes"
      (by decide)).1⟩

/-! ## Claim C8 — `submit_game_result` feedback -/

/-- How many history records trigger the effectiveness bump for row `r`:
the number of Q&A records whose question id matches, provided the row is
in the session's domain. -/
def effCount (hist : List QRecord) (domain : String) (r : DQRow) : Nat :=
  hist.countP (fun qr => decide (r.domain = domain ∧ r.question_id = qr.question_id))

lemma bump_eta (rows : List DQRow) :
    rows.map (fun r => { r with effectiveness := r.effectiveness }) = rows := by
  induction rows with
  | nil => rfl
  | cons a l ih =>
      rw [List.map_cons, ih]

lemma effCount_update (hist : List QRecord) (domain : String) (r : DQRow)
    (x : ℚ) :
    effCount hist domain { r with effectiveness := x } =
      effCount hist domain r := rfl

lemma effCount_cons (qr : QRecord) (hist : List QRecord) (domain : String)
    (r : DQRow) :
    effCount (qr :: hist) domain r =
      effCount hist domain r +
        (if r.domain = domain ∧ r.question_id = qr.question_id then 1 else 0) := by
  simp [effCount, List.countP_cons]

lemma applyEffRows_eq_map (domain : String) (delta : ℚ) (hist : List QRecord) :
    ∀ rows : List DQRow,
      applyEffRows domain delta hist rows = rows.map (fun r =>
        { r with effectiveness :=
            r.effectiveness + delta * (effCount hist domain r : ℚ) }) := by
  induction hist with
  | nil =>
      intro rows
      simp only [applyEffRows, List.foldl_nil, effCount, List.countP_nil,
        Nat.cast_zero, mul_zero, add_zero]
      rw [bump_eta]
  | cons qr hist ih =>
      intro rows
      show applyEffRows domain delta hist (bumpRows domain qr.question_id delta rows) =
        rows.map (fun r =>
          { r with effectiveness :=
              r.effectiveness + delta * (effCount (qr :: hist) domain r : ℚ) })
      rw [ih (bumpRows domain qr.question_id delta rows), bumpRows, List.map_map]
      apply List.map_congr_left
      intro r _
      by_cases hd : r.domain = domain ∧ r.question_id = qr.question_id
      · simp only [Function.comp_apply, if_pos hd, effCount_update,
          effCount_cons, if_pos hd]
        congr 1
        push_cast
        ring
      · simp only [Function.comp_apply, if_neg hd, effCount_cons, if_neg hd,
          Nat.add_zero]

lemma upsertGuess_domain_questions (db : Db) (domain : String)
    (entity : Option String) (wc : Bool) :
    (upsertGuess db domain entity wc).domain_questions = db.domain_questions := by
  unfold upsertGuess
  repeat' split
  all_goals rfl

/-- Claim C8: submitting a result moves every matching domain-cache
slot's effectiveness by +0.1 (correct) or −0.05 (incorrect) per occurrence
of its question in the session history — in particular by exactly +0.1 /
−0.05 for a question asked exactly once — and on a correct result the
revealed entity's `domain_guesses` row gains exactly 1 success (created
with fail_count 0 when absent). -/
theorem submit_game_result_spec (db : Db) (sid : String) (st : GameState)
    (e : String) (was_correct : Bool) :
    ((submit_game_result db sid st was_correct (some e)).domain_questions =
      db.domain_questions.map (fun r =>
        { r with effectiveness := r.effectiveness +
            (if was_correct then 1/10 else -(1/20)) *
              (effCount st.question_history st.domain r : ℚ) }))
    ∧ (∀ r ∈ db.domain_questions,
        effCount st.question_history st.domain r = 1 →
        { r with effectiveness := r.effectiveness +
            (if was_correct then (1:ℚ)/10 else -(1/20)) } ∈
          (submit_game_result db sid st was_correct (some e)).domain_questions)
    ∧ (was_correct = true →
        db.domain_guesses.find? (fun r =>
            r.domain = st.domain ∧ sqlStrEq r.entity_name (some e)) = none →
        (submit_game_result db sid st was_correct (some e)).domain_guesses =
          db.domain_guesses ++ [⟨db.nextGuessRowId, st.domain, some e, 1, 0⟩])
    ∧ (was_correct = true →
        ∀ row, db.domain_guesses.find? (fun r =>
            r.domain = st.domain ∧ sqlStrEq r.entity_name (some e)) = some row →
        (submit_game_result db sid st was_correct (some e)).domain_guesses =
          db.domain_guesses.map (fun r =>
            if r.rowId = row.rowId then
              { r with success_count := r.success_count + 1 }
            else r)) := by
  have hdq : (submit_game_result db sid st was_correct (some e)).domain_questions =
      applyEffRows st.domain (if was_correct then 1/10 else -(1/20))
        st.question_history db.domain_questions := by
    unfold submit_game_result
    rw [upsertGuess_domain_questions]
    rfl
  have hguesses : ∀ wc : Bool,
      (submit_game_result db sid st wc (some e)).domain_guesses =
        (upsertGuess
          { db with
              game_history := db.game_history ++
                [⟨sid, some e, st.domain, wc⟩]
              game_questions := db.game_questions ++
                (st.question_history.enum.map
                  (fun p => ⟨sid, p.2.question_id, p.2.answer, p.1⟩))
              domain_questions := applyEffRows st.domain
                (if wc then 1/10 else -(1/20)) st.question_history
                db.domain_questions }
          st.domain (some e) wc).domain_guesses := fun _ => rfl
  refine ⟨?_, ?_, ?_, ?_⟩
  · rw [hdq, applyEffRows_eq_map]
  · intro r hr hcount
    rw [hdq, applyEffRows_eq_map]
    have hmem := List.mem_map_of_mem (fun r : DQRow =>
      { r with effectiveness := r.effectiveness +
          (if was_correct then (1:ℚ)/10 else -(1/20)) *
            (effCount st.question_history st.domain r : ℚ) }) hr
    have heq : ({ r with effectiveness := r.effectiveness +
        (if was_correct then (1:ℚ)/10 else -(1/20)) *
          (effCount st.question_history st.domain r : ℚ) } : DQRow) =
        { r with effectiveness := r.effectiveness +
            (if was_correct then (1:ℚ)/10 else -(1/20)) } := by
      rw [hcount]
      norm_num
    rw [← heq]
    exact hmem
  · intro hw hnone
    subst hw
    rw [hguesses true]
    unfold upsertGuess
    rw [if_pos rfl]
    have : ({ db with
        game_history := db.game_history ++ [⟨sid, some e, st.domain, true⟩]
        game_questions := db.game_questions ++
          (st.question_history.enum.map
            (fun p => ⟨sid, p.2.question_id, p.2.answer, p.1⟩))
        domain_questions := applyEffRows st.domain
          (if true then 1/10 else -(1/20)) st.question_history
          db.domain_questions } : Db).domain_guesses.find? (fun r =>
        r.domain = st.domain ∧ sqlStrEq r.entity_name (some e)) = none := hnone
    rw [this]
  · intro hw row hrow
    subst hw
    rw [hguesses true]
    unfold upsertGuess
    rw [if_pos rfl]
    have : ({ db with
        game_history := db.game_history ++ [⟨sid, some e, st.domain, true⟩]
        game_questions := db.game_questions ++
          (st.question_history.enum.map
            (fun p => ⟨sid, p.2.question_id, p.2.answer, p.1⟩))
        domain_questions := applyEffRows st.domain
          (if true then 1/10 else -(1/20)) st.question_history
          db.domain_questions } : Db).domain_guesses.find? (fun r =>
        r.domain = st.domain ∧ sqlStrEq r.entity_name (some e)) = some row := hrow
    rw [this]

/-- The store for claim C8's witness: one cached slot for ("animal",
question 1) and no guess rows. -/
def feedbackDb : Db :=
  { emptyDb with
      questions := [⟨1, "Is it alive?"⟩]
      nextQuestionId := 2
      domain_questions := [⟨1, "animal", 1, some 0, 3, 1/2⟩]
      nextSlotRowId := 2 }

/-- The session for claim C8's witness: question 1 was asked once and
answered "yes". -/
def feedbackState : GameState :=
  { domain := "animal"
    questions_asked := 1
    question_history := [⟨1, "Is it alive?", "yes"⟩]
    asked_questions := ["Is it alive?"]
    current_question_id := some 1 }

/-- Witness for claim C8's theorem: on the concrete store, a correct
result bumps the slot to effectiveness 0.6 and creates the guess row
("animal", "Dog") with success 1, fail 0. -/
theorem submit_game_result_spec_witness :
    effCount feedbackState.question_history feedbackState.domain
        ⟨1, "animal", 1, some 0, 3, 1/2⟩ = 1 ∧
    ({ (⟨1, "animal", 1, some 0, 3, 1/2⟩ : DQRow) with
        effectiveness := (1:ℚ)/2 + (if true then (1:ℚ)/10 else -(1/20)) } ∈
      (submit_game_result feedbackDb "sid" feedbackState true
        (some "Dog")).domain_questions) ∧
    (submit_game_result feedbackDb "sid" feedbackState true
        (some "Dog")).domain_guesses =
      feedbackDb.domain_guesses ++ [⟨1, "animal", some "Dog", 1, 0⟩] :=
  ⟨by decide,
    (submit_game_result_spec feedbackDb "sid" feedbackState "Dog" true).2.1
      ⟨1, "animal", 1, some 0, 3, 1/2⟩ (List.Mem.head _) (by decide),
    (submit_game_result_spec feedbackDb "sid" feedbackState "Dog" true).2.2.1
      rfl (by decide)⟩

/-! ## Claim C1 — tier order of `get_next_question` -/

/-- Claim C1 counterexample store: an unasked cached slot for "animal"
(question 1, effectiveness 0.9) exists. -/
def c1Db : Db :=
  { emptyDb with
      questions := [⟨1, "Is it alive?"⟩]
      nextQuestionId := 2
      domain_questions := [⟨1, "animal", 1, some 0, 4, 9/10⟩]
      nextSlotRowId := 2 }

/-- Claim C1 counterexample environment: AI generation succeeds with a
fresh question and every store write succeeds. -/
def c1Env : GNQEnv := ⟨some "Does it fly?", true, true, true, fun n => n, 10⟩

/-- Claim C1 counterexample: a cached slot for the session's domain with
an unasked text exists, yet the returned question is the freshly generated
one and the generation attempt was made — generation runs before the
cache, not after it. -/
theorem question_order_counterexample :
    cacheCandidates c1Db "animal" (start_new_game "animal").asked_questions ≠ [] ∧
    (get_next_question c1Db (start_new_game "animal") c1Env).toOption.map
        GNQOut.source = some QuestionSource.generated ∧
    (get_next_question c1Db (start_new_game "animal") c1Env).toOption.map
        GNQOut.question_text = some "Does it fly?" ∧
    (get_next_question c1Db (start_new_game "animal") c1Env).toOption.map
        GNQOut.genAttempted = some true := by
  refine ⟨by decide, rfl, rfl, rfl⟩

/-- Claim C1 (amended): the tiers run in the order generation, then
cache, then emergency, a later tier only if the earlier failed: whenever
generation returns a validated text and its tier's writes succeed, the
returned question is the generated one and the cache is not consulted —
even when an unasked cached slot exists. -/
theorem generation_tier_first (db : Db) (st : GameState) (env : GNQEnv)
    (t : String) (hgen : env.genText = some t)
    (hok : env.genPersistOk = true) :
    ∃ out, get_next_question db st env = Except.ok out ∧
      out.source = QuestionSource.generated ∧
      out.question_text = t ∧
      out.genAttempted = true ∧
      out.cacheQueried = false := by
  have hg : genTier db st env = some
      ⟨(persistQuestionText db t).2, t, false,
        registerSlot (persistQuestionText db t).1 st.domain
          (persistQuestionText db t).2 st.questions_asked,
        askState st t (persistQuestionText db t).2, .generated, true, false⟩ := by
    unfold genTier
    rw [hgen]
    exact if_pos hok
  refine ⟨⟨(persistQuestionText db t).2, t, false,
    registerSlot (persistQuestionText db t).1 st.domain
      (persistQuestionText db t).2 st.questions_asked,
    askState st t (persistQuestionText db t).2, .generated, true, false⟩,
    ?_, rfl, rfl, rfl, rfl⟩
  unfold get_next_question
  simp only [hg]

/-- Witness for claim C1's amended theorem at the counterexample inputs. -/
theorem generation_tier_first_witness :
    c1Env.genText = some "Does it fly?" ∧ c1Env.genPersistOk = true ∧
      ∃ out, get_next_question c1Db (start_new_game "animal") c1Env =
          Except.ok out ∧
        out.source = QuestionSource.generated ∧
        out.question_text = "Does it fly?" ∧
        out.genAttempted = true ∧
        out.cacheQueried = false :=
  ⟨rfl, rfl, generation_tier_first c1Db (start_new_game "animal") c1Env
    "Does it fly?" rfl rfl⟩

/-! ## Claim C4 — what the cache tier actually selects -/

lemma pickBetter_some (rank : Nat → Nat) (acc : Option (DQRow × String))
    (c x : DQRow × String) (h : pickBetter rank acc c = some x) :
    (x = c ∨ acc = some x) ∧ c.1.effectiveness ≤ x.1.effectiveness ∧
      (∀ b, acc = some b → b.1.effectiveness ≤ x.1.effectiveness) := by
  cases acc with
  | none =>
      have hx : c = x := Option.some.inj h
      subst hx
      exact ⟨Or.inl rfl, le_refl _, fun b hb => by cases hb⟩
  | some b =>
      have h' : (if b.1.effectiveness < c.1.effectiveness ∨
          (c.1.effectiveness = b.1.effectiveness ∧
            rank c.1.rowId < rank b.1.rowId) then some c else some b) = some x := h
      by_cases hcond : b.1.effectiveness < c.1.effectiveness ∨
          (c.1.effectiveness = b.1.effectiveness ∧ rank c.1.rowId < rank b.1.rowId)
      · rw [if_pos hcond] at h'
        have hx : c = x := Option.some.inj h'
        subst hx
        refine ⟨Or.inl rfl, le_refl _, fun b' hb' => ?_⟩
        have hb : b = b' := Option.some.inj hb'
        subst hb
        rcases hcond with hlt | ⟨heq, _⟩
        · exact le_of_lt hlt
        · exact le_of_eq heq.symm
      · rw [if_neg hcond] at h'
        have hx : b = x := Option.some.inj h'
        subst hx
        push_neg at hcond
        exact ⟨Or.inr rfl, hcond.1, fun b' hb' => by
          have hb : b = b' := Option.some.inj hb'
          subst hb
          exact le_refl _⟩

lemma pickBetter_ne_none (rank : Nat → Nat) (acc : Option (DQRow × String))
    (c : DQRow × String) : ∃ y, pickBetter rank acc c = some y := by
  cases acc with
  | none => exact ⟨c, rfl⟩
  | some b =>
      by_cases hcond : b.1.effectiveness < c.1.effectiveness ∨
          (c.1.effectiveness = b.1.effectiveness ∧ rank c.1.rowId < rank b.1.rowId)
      · exact ⟨c, if_pos hcond⟩
      · exact ⟨b, if_neg hcond⟩

lemma foldl_pickBetter_spec (rank : Nat → Nat) :
    ∀ (l : List (DQRow × String)) (acc : Option (DQRow × String))
      (x : DQRow × String),
      l.foldl (pickBetter rank) acc = some x →
      (x ∈ l ∨ acc = some x) ∧
        (∀ c ∈ l, c.1.effectiveness ≤ x.1.effectiveness) ∧
        (∀ b, acc = some b → b.1.effectiveness ≤ x.1.effectiveness) := by
  intro l
  induction l with
  | nil =>
      intro acc x h
      rw [List.foldl_nil] at h
      exact ⟨Or.inr h, fun c hc => absurd hc (List.not_mem_nil c),
        fun b hb => by rw [h] at hb; cases hb; exact le_refl _⟩
  | cons c l ih =>
      intro acc x h
      rw [List.foldl_cons] at h
      obtain ⟨y, hy⟩ := pickBetter_ne_none rank acc c
      obtain ⟨hyc, hcy, haccy⟩ := pickBetter_some rank acc c y hy
      obtain ⟨hmem, hall, hacc⟩ := ih (pickBetter rank acc c) x h
      have hyx : y.1.effectiveness ≤ x.1.effectiveness := hacc y hy
      refine ⟨?_, ?_, ?_⟩
      · rcases hmem with hx | hx
        · exact Or.inl (List.mem_cons_of_mem _ hx)
        · rw [hy] at hx
          have hxy : y = x := Option.some.inj hx
          rcases hyc with h1 | h2
          · refine Or.inl ?_
            rw [← hxy, h1]
            exact List.mem_cons_self _ _
          · exact Or.inr (hxy ▸ h2)
      · intro d hd
        rcases List.mem_cons.mp hd with rfl | hd'
        · exact le_trans hcy hyx
        · exact hall d hd'
      · intro b hb
        exact le_trans (haccy b hb) hyx

/-- Claim C4 counterexample store: two "animal" slots — question 1 at
position 0 with effectiveness 0.9 and usage 7, question 2 at position 5
with effectiveness 0.5 and usage 2. -/
def c4Db : Db :=
  { emptyDb with
      questions := [⟨1, "Is it alive?"⟩, ⟨2, "Can it swim?"⟩]
      nextQuestionId := 3
      domain_questions :=
        [⟨1, "animal", 1, some 0, 7, 9/10⟩, ⟨2, "animal", 2, some 5, 2, 1/2⟩]
      nextSlotRowId := 3 }

/-- A session at position 5: five (emergency-style) questions already
asked, none of them a cached text. -/
def c4State : GameState :=
  { domain := "animal"
    questions_asked := 5
    question_history :=
      [⟨3, "E1?", "yes"⟩, ⟨4, "E2?", "no"⟩, ⟨5, "E3?", "yes"⟩,
       ⟨6, "E4?", "no"⟩, ⟨7, "E5?", "yes"⟩]
    asked_questions := ["E1?", "E2?", "E3?", "E4?", "E5?"]
    current_question_id := some 7 }

/-- Claim C4 counterexample environment: generation fails, everything
else succeeds. -/
def c4Env : GNQEnv := ⟨none, true, true, true, fun n => n, 10⟩

/-- Claim C4 counterexample: the session is at position 5, whose only
slot is question 2, yet the code's query (which never filters by
position) selects the position-0 slot with the globally highest
effectiveness; the spec-described (domain, position) selection picks
question 2 instead, and `get_next_question` indeed returns question 1. -/
theorem cached_selection_counterexample :
    selectCached c4Db "animal" c4State.asked_questions (fun n => n) =
      some (⟨1, "animal", 1, some 0, 7, 9/10⟩, "Is it alive?") ∧
    selectCachedSpec c4Db "animal" c4State.questions_asked
        c4State.asked_questions =
      some (⟨2, "animal", 2, some 5, 2, 1/2⟩, "Can it swim?") ∧
    ("Is it alive?" : String) ≠ "Can it swim?" ∧
    (get_next_question c4Db c4State c4Env).toOption.map
        GNQOut.question_text = some "Is it alive?" := by
  refine ⟨?_, ?_, by decide, ?_⟩
  · norm_num [selectCached, cacheCandidates, cacheExcluded, c4Db, c4State,
      emptyDb, pickBetter, List.filterMap, List.find?, List.foldl]
  · norm_num [selectCachedSpec, c4Db, c4State, emptyDb, List.filterMap,
      List.find?, List.foldl]
  · norm_num [get_next_question, genTier, cacheTier, c4Env, selectCached,
      cacheCandidates, cacheExcluded, c4Db, c4State, emptyDb, pickBetter,
      List.filterMap, List.find?, List.foldl, touchCachedSlot, askState]
    exact ⟨_, rfl, rfl⟩

/-- Claim C4 (amended): the cache tier ignores both the position and the
usage_count: it selects, among all slots of the session's domain whose
text is not in the asked list, one with maximal effectiveness, ties
resolved by the SQL RANDOM() key (modelled by `rank`). -/
theorem selectCached_max_effectiveness (db : Db) (domain : String)
    (asked : List String) (rank : Nat → Nat) (x : DQRow × String)
    (hx : selectCached db domain asked rank = some x) :
    x ∈ cacheCandidates db domain asked ∧
      ∀ c ∈ cacheCandidates db domain asked,
        c.1.effectiveness ≤ x.1.effectiveness := by
  unfold selectCached at hx
  obtain ⟨hmem, hall, _⟩ :=
    foldl_pickBetter_spec rank (cacheCandidates db domain asked) none x hx
  rcases hmem with h | h
  · exact ⟨h, hall⟩
  · cases h

/-- Witness for claim C4's amended theorem at the counterexample inputs. -/
theorem selectCached_max_effectiveness_witness :
    selectCached c4Db "animal" c4State.asked_questions (fun n => n) =
        some (⟨1, "animal", 1, some 0, 7, 9/10⟩, "Is it alive?") ∧
      ((⟨1, "animal", 1, some 0, 7, 9/10⟩ : DQRow), "Is it alive?") ∈
        cacheCandidates c4Db "animal" c4State.asked_questions := by
  have hsel : selectCached c4Db "animal" c4State.asked_questions (fun n => n) =
      some (⟨1, "animal", 1, some 0, 7, 9/10⟩, "Is it alive?") := by
    norm_num [selectCached, cacheCandidates, cacheExcluded, c4Db, c4State,
      emptyDb, pickBetter, List.filterMap, List.find?, List.foldl]
  exact ⟨hsel, (selectCached_max_effectiveness c4Db "animal"
    c4State.asked_questions (fun n => n)
    (⟨1, "animal", 1, some 0, 7, 9/10⟩, "Is it alive?") hsel).1⟩

/-! ## Claim C5 — failures that do and do not propagate -/

/-- Claim C5 counterexample environment: generation fails, the cache is
empty, and the emergency tier's (unprotected) store write fails. -/
def c5FailEnv : GNQEnv := ⟨none, true, true, false, fun n => n, 10⟩

/-- Claim C5 counterexample: a persistence failure in the emergency tier
of `get_next_question` propagates to the caller as a raised error, and so
does a database failure in `make_guess`'s pattern-match lookup. -/
theorem failure_propagates_counterexample :
    get_next_question emptyDb (start_new_game "animal") c5FailEnv =
      Except.error GNQFailure.raised ∧
    make_guess emptyDb (start_new_game "animal") ⟨false, some "Dog"⟩ =
      Except.error () :=
  ⟨rfl, rfl⟩

/-- Claim C5 (amended): generation, validation, quota and cache-tier
failures never propagate out of `get_next_question`, and AI/quota
failures never propagate out of `make_guess` — but only provided the
emergency tier's own unprotected writes succeed (and its retry loop
terminates), respectively that `make_guess`'s unprotected pattern-match
reads succeed; the counterexample shows each provision is necessary. -/
theorem fallback_guarantees_response (db : Db) (st : GameState) (env : GNQEnv)
    (genv : GuessEnv) (hemer : env.emergencyPersistOk = true)
    (hloop : (findUnusedEmergency st.domain st.asked_questions env.fuel
        (create_emergency_question st.domain st.asked_questions.length)).isSome
        = true)
    (hdb : genv.dbOk = true) :
    (∃ out, get_next_question db st env = Except.ok out) ∧
      (∃ r, make_guess db st genv = Except.ok r) := by
  constructor
  · unfold get_next_question
    rcases hg : genTier db st env with _ | o1
    · rcases hc : cacheTier db st env with _ | o2
      · unfold emergencyTier
        rcases hf : findUnusedEmergency st.domain st.asked_questions env.fuel
            (create_emergency_question st.domain st.asked_questions.length)
          with _ | t
        · rw [hf] at hloop
          simp at hloop
        · exact ⟨_, if_pos hemer⟩
      · exact ⟨o2, rfl⟩
    · exact ⟨o1, rfl⟩
  · unfold make_guess
    rw [if_pos hdb]
    rcases hb : (bestMatch db st.domain (sessionPattern st)).2 with _ | g
    · exact ⟨_, rfl⟩
    · by_cases hcond : (7 : ℚ)/10 ≤ (bestMatch db st.domain (sessionPattern st)).1
          ∧ g ≠ ""
      · exact ⟨_, if_pos hcond⟩
      · exact ⟨_, if_neg hcond⟩

/-- Claim C5 witness environment: all earlier tiers fail, the emergency
tier's writes succeed. -/
def c5OkEnv : GNQEnv := ⟨none, false, false, true, fun n => n, 10⟩

/-- Witness for claim C5's amended theorem: with generation and cache
failing but the emergency tier healthy, a response is returned. -/
theorem fallback_guarantees_response_witness :
    c5OkEnv.emergencyPersistOk = true ∧
      (∃ out, get_next_question emptyDb (start_new_game "animal") c5OkEnv =
        Except.ok out) ∧
      (∃ r, make_guess emptyDb (start_new_game "animal") ⟨true, none⟩ =
        Except.ok r) := by
  have h := fallback_guarantees_response emptyDb (start_new_game "animal")
    c5OkEnv ⟨true, none⟩ rfl (by decide) rfl
  exact ⟨rfl, h.1, h.2⟩

/-! ## Claim C6 — guess capitalization -/

/-- Claim C6 counterexample store: the entity "dog" (stored lowercase)
has a successful history game "g1" whose answer pattern matches the
current session exactly. -/
def c6Db : Db :=
  { emptyDb with
      domain_guesses := [⟨1, "animal", some "dog", 3, 0⟩]
      nextGuessRowId := 2
      game_history := [⟨"g1", some "dog", "animal", true⟩]
      game_questions := [⟨"g1", 1, "yes", 0⟩] }

/-- Claim C6 counterexample session: one question asked and answered,
matching game "g1"'s pattern. -/
def c6State : GameState :=
  { domain := "animal"
    questions_asked := 1
    question_history := [⟨1, "Is it alive?", "yes"⟩]
    asked_questions := ["Is it alive?"]
    current_question_id := some 1 }

lemma c6_make_guess_eval :
    make_guess c6Db c6State ⟨true, some "cat"⟩ =
      Except.ok ⟨"dog", 1, GuessSource.patternMatch⟩ := by
  norm_num [make_guess, bestMatch, cachedGuesses, sortRows, insertSorted,
    successfulGames, gamePattern, patternOfList, sessionPattern, sqlStrEq,
    calculate_pattern_similarity, commonQuestions, matchCount, c6Db, c6State,
    emptyDb, List.filter, List.foldl]
  intro h
  exact absurd h (by decide)

/-- Claim C6 counterexample: a pattern-match cache hit (similarity 1.0 ≥
0.7) returns the stored entity name "dog" as-is — its first character is
not capitalized; only the AI-path guess passes through the
capitalization. -/
theorem guess_capitalization_counterexample :
    make_guess c6Db c6State ⟨true, some "cat"⟩ =
      Except.ok ⟨"dog", 1, GuessSource.patternMatch⟩ ∧
    "dog".front.isUpper = false := by
  exact ⟨c6_make_guess_eval, rfl⟩

/-- Claim C6 (amended): only the `generate_guess` path is capitalized: a
guess whose source is the AI/static/default path equals `capitalizeFirst`
of the `generate_guess` output, while a pattern-match hit returns the
stored entity name unmodified (so it is capitalized only if it was stored
capitalized). -/
theorem make_guess_capitalization (db : Db) (st : GameState) (env : GuessEnv)
    (r : MakeGuessOut) (hok : make_guess db st env = Except.ok r) :
    (r.source = GuessSource.aiPath →
      r.guess = capitalizeFirst (generate_guess st.domain env.aiResult).1) ∧
    (r.source = GuessSource.patternMatch →
      (bestMatch db st.domain (sessionPattern st)).2 = some r.guess) := by
  unfold make_guess at hok
  split at hok
  · split at hok
    · rename_i g heq
      split at hok
      · cases hok
        refine ⟨fun h => by simp at h, fun _ => ?_⟩
        rw [heq]
      · cases hok
        exact ⟨fun _ => rfl, fun h => by simp at h⟩
    · cases hok
      exact ⟨fun _ => rfl, fun h => by simp at h⟩
  · cases hok

/-- Witness for claim C6's amended theorem at the counterexample inputs:
the pattern-match source returns exactly the stored (lowercase) entity. -/
theorem make_guess_capitalization_witness :
    make_guess c6Db c6State ⟨true, some "cat"⟩ =
        Except.ok ⟨"dog", 1, GuessSource.patternMatch⟩ ∧
      (bestMatch c6Db c6State.domain (sessionPattern c6State)).2 = some "dog" :=
  ⟨c6_make_guess_eval,
    (make_guess_capitalization c6Db c6State ⟨true, some "cat"⟩
      ⟨"dog", 1, GuessSource.patternMatch⟩ c6_make_guess_eval).2 rfl⟩

end Game
